import Mathlib

/-!
Shallow embedding of the `dyanjac/vimeo` FastAPI proxy (the Vimeo API wrapper).

Provider JSON documents are modelled as Lean structures whose fields are
`Option`-typed: `none` stands for an absent key, so Python's
`data.get(key, default)` becomes `field.getD default`.  The outbound HTTP
layer is modelled by passing the provider's behaviour (its response or
failure) to the client function as an explicit argument; the error taxonomy
(`fastapi.HTTPException`) becomes a pair of a status code and a detail
string, and fallible operations return `Except HTTPException α`.
-/

namespace Vimeo

/-- A raised `fastapi.HTTPException`: a status code and a detail message. -/
structure HTTPException where
  status_code : Nat
  detail : String
deriving DecidableEq, Repr

/-- Outcome of one outbound `httpx` call, as observed by `_request` in
`app/services/vimeo_client.py`: either a 2xx/3xx response whose JSON body
parsed to `α` (so `response.raise_for_status()` did not raise), or an
`httpx.HTTPStatusError` raised by `raise_for_status` for a 4xx/5xx status
carrying `e.response.status_code` and `e.response.text`, or an
`httpx.RequestError` (timeout / connection failure). -/
inductive RequestOutcome (α : Type) where
  | success (body : α)
  | statusError (code : Nat) (text : String)
  | requestError
deriving DecidableEq, Repr

/-- `VimeoClient._request` (vimeo_client.py lines 19-46): propagates the JSON
body on success and translates failures into `HTTPException`s exactly as the
`except` branches do. -/
def _request {α : Type} (outcome : RequestOutcome α) : Except HTTPException α :=
  match outcome with
  | .success body => .ok body
  | .statusError status_code text =>
      let detail := "Vimeo API Error: " ++ text
      if status_code = 401 then
        .error ⟨401, "Invalid Vimeo Token"⟩
      else if status_code = 403 then
        .error ⟨403, "Permission Denied"⟩
      else if status_code = 404 then
        .error ⟨404, "Resource Not Found"⟩
      else if status_code = 429 then
        .error ⟨429, "Rate Limit Exceeded"⟩
      else
        .error ⟨502, detail⟩
  | .requestError => .error ⟨503, "Service Unavailable"⟩

/-- The nested `embed` object of a provider video record; `html` may be
absent. -/
structure ProviderEmbed where
  html : Option String
deriving DecidableEq, Repr

/-- The `pictures` object of a provider record, per the `Picture` schema in
`app/schemas/video.py` (the `sizes` dicts are simplified to key/value
pairs).  It is passed through normalization untouched. -/
structure Picture where
  active : Bool
  type : String
  sizes : List (List (String × String))
  resource_key : String
deriving DecidableEq, Repr

/-- A provider video record as a JSON dictionary: each field is `none` when
the key is absent. -/
structure ProviderRecord where
  uri : Option String
  name : Option String
  description : Option String
  duration : Option Int
  link : Option String
  embed : Option ProviderEmbed
  pictures : Option Picture
deriving DecidableEq, Repr

/-- The `Video` schema of `app/schemas/video.py` (link is kept as a plain
string; `HttpUrl` validation is not modelled). -/
structure Video where
  id : String
  name : String
  description : Option String
  duration : Int
  link : String
  embed_html : Option String
  pictures : Option Picture
deriving DecidableEq, Repr

/-- Python's `s.split(sep)` for a single-character separator, on the
string's character list: `"".split("/") == [""]` and
`"/videos/123".split("/") == ["", "videos", "123"]` — with an explicit
separator, `str.split` never returns an empty list. -/
def pySplitChars (c : Char) : List Char → List (List Char)
  | [] => [[]]
  | x :: xs =>
      if x = c then [] :: pySplitChars c xs
      else
        match pySplitChars c xs with
        | [] => [[x]]
        | y :: ys => (x :: y) :: ys

/-- Python's `s.split(c)` for a one-character separator `c`. -/
def pySplit (s : String) (c : Char) : List String :=
  (pySplitChars c s.data).map String.mk

/-- Python's `s.split("/")[-1]`: `[-1]` takes the last element of the
(always nonempty) split result. -/
def lastSegment (s : String) : String :=
  ((pySplit s '/').getLast?).getD ""

/-- `VimeoClient._normalize_video` (vimeo_client.py lines 48-66). -/
def _normalize_video (data : ProviderRecord) : Video :=
  let video_id := lastSegment (data.uri.getD "")
  let embed_html := (data.embed.getD ⟨none⟩).html
  { id := video_id
    name := data.name.getD "Untitled"
    description := data.description
    duration := data.duration.getD 0
    link := data.link.getD ""
    embed_html := embed_html
    pictures := data.pictures }

/-- The provider's JSON body for `GET /me/videos`: a `data` array of records
plus optional `page`, `per_page`, `total` keys. -/
structure ListingResponse where
  data : List ProviderRecord
  page : Option Int
  per_page : Option Int
  total : Option Int
deriving DecidableEq, Repr

/-- The `VideoList` schema of `app/schemas/video.py`. -/
structure VideoList where
  data : List Video
  page : Int
  per_page : Int
  total : Int
deriving DecidableEq, Repr

/-- The query parameters the client puts in an outbound listing request
(`params` dict built in `get_videos` / `search_videos`); an absent key is
`none`. -/
structure ListParams where
  page : Int
  per_page : Int
  sort : Option String
  query : Option String
deriving DecidableEq, Repr

/-- One outbound provider call: HTTP method, endpoint path and query
parameters. -/
structure OutboundCall where
  method : String
  endpoint : String
  params : ListParams
deriving DecidableEq, Repr

/-- `VimeoClient.get_videos` (vimeo_client.py lines 68-81).  Returns the
outbound call it issues together with the result computed from the
provider's behaviour.  Python's `if sort:` omits the key when `sort` is
`None` or the empty string (both falsy). -/
def get_videos (page : Int := 1) (per_page : Int := 25) (sort : Option String := none)
    (outcome : RequestOutcome ListingResponse) : OutboundCall × Except HTTPException VideoList :=
  let sortParam : Option String :=
    match sort with
    | none => none
    | some s => if s = "" then none else some s
  let call : OutboundCall :=
    ⟨"GET", "/me/videos", ⟨page, per_page, sortParam, none⟩⟩
  (call,
   match _request outcome with
   | .error e => .error e
   | .ok data =>
       .ok { data := data.data.map _normalize_video
             page := data.page.getD 1
             per_page := data.per_page.getD 25
             total := data.total.getD 0 })

/-- `VimeoClient.search_videos` (vimeo_client.py lines 83-93): same endpoint
and normalization as `get_videos`, with a `query` parameter and no `sort`. -/
def search_videos (query : String) (page : Int := 1) (per_page : Int := 25)
    (outcome : RequestOutcome ListingResponse) : OutboundCall × Except HTTPException VideoList :=
  let call : OutboundCall :=
    ⟨"GET", "/me/videos", ⟨page, per_page, none, some query⟩⟩
  (call,
   match _request outcome with
   | .error e => .error e
   | .ok data =>
       .ok { data := data.data.map _normalize_video
             page := data.page.getD 1
             per_page := data.per_page.getD 25
             total := data.total.getD 0 })

/-- `VimeoClient.get_video` (vimeo_client.py lines 95-97). -/
def get_video (outcome : RequestOutcome ProviderRecord) : Except HTTPException Video :=
  match _request outcome with
  | .error e => .error e
  | .ok data => .ok (_normalize_video data)

/-- Outcome of a FastAPI route: either the framework rejected the request
parameters (FastAPI answers parameter-validation failures with status 422),
or the handler body ran and produced `α`. -/
inductive RouteResult (α : Type) where
  | validationError (code : Nat)
  | handled (r : α)
deriving DecidableEq, Repr

/-- Validity of the `sort` query parameter per its
`Literal["date", "alphabetical", "duration", "last_user_action"]`
annotation in `list_videos` (absent is allowed: `Query(None)`). -/
def sortOk (sort : Option String) : Bool :=
  match sort with
  | none => true
  | some s => s ∈ ["date", "alphabetical", "duration", "last_user_action"]

/-- `list_videos` route (app/api/routes/videos.py lines 13-23): FastAPI
validates `page: int = Query(1, ge=1)`, `per_page: int = Query(25, ge=1,
le=100)` and the `sort` literal, then the handler returns
`client.get_videos(page=page, per_page=per_page, sort=sort)`. -/
def list_videos (page : Int := 1) (per_page : Int := 25) (sort : Option String := none)
    (outcome : RequestOutcome ListingResponse) :
    RouteResult (OutboundCall × Except HTTPException VideoList) :=
  if page < 1 then .validationError 422
  else if per_page < 1 ∨ 100 < per_page then .validationError 422
  else if ¬ sortOk sort then .validationError 422
  else .handled (get_videos page per_page sort outcome)

/-- `search_videos` route (app/api/routes/videos.py lines 25-35): FastAPI
validates `q: str = Query(..., min_length=1)` (required, at least one
character — whitespace counts) and the pagination bounds, then the handler
returns `client.search_videos(query=q, page=page, per_page=per_page)`. -/
def search_videos_route (q : Option String) (page : Int := 1) (per_page : Int := 25)
    (outcome : RequestOutcome ListingResponse) :
    RouteResult (OutboundCall × Except HTTPException VideoList) :=
  match q with
  | none => .validationError 422
  | some s =>
      if s.length < 1 then .validationError 422
      else if page < 1 then .validationError 422
      else if per_page < 1 ∨ 100 < per_page then .validationError 422
      else .handled (search_videos s page per_page outcome)

/-- The `mode` query parameter of the play route:
`Literal["json", "redirect"] = Query("json")`. -/
inductive PlayMode where
  | json
  | redirect
deriving DecidableEq, Repr

/-- What the play route sends back: a redirect (`Location` header, empty
body), a JSON `PlayVideoResponse` body, or a raised `HTTPException`. -/
inductive PlayResult where
  | redirect (status_code : Nat) (location : String)
  | json (status_code : Nat) (link : String) (embed_html : Option String)
  | error (e : HTTPException)
deriving DecidableEq, Repr

/-- The status code of `starlette.responses.RedirectResponse` when built
with no `status_code` argument, as `play_video` does: its default is 307
(Temporary Redirect). -/
def RedirectResponse_default_status : Nat := 307

/-- `play_video` route (app/api/routes/videos.py lines 37-54): fetches the
record, then either `RedirectResponse(url=str(video.link))` (no explicit
status code, empty body) or a 200 `PlayVideoResponse(link, embed_html)`. -/
def play_video (mode : PlayMode := .json) (outcome : RequestOutcome ProviderRecord) :
    PlayResult :=
  match get_video outcome with
  | .error e => .error e
  | .ok video =>
      match mode with
      | .redirect => .redirect RedirectResponse_default_status video.link
      | .json => .json 200 video.link video.embed_html

/-- The nested `upload` object of an upload-ticket response. -/
structure TicketUpload where
  upload_link : Option String
deriving DecidableEq, Repr

/-- The provider's JSON response to the ticket-creation
`POST /me/videos`, as read by `upload_video`. -/
structure UploadTicket where
  upload : Option TicketUpload
  uri : Option String
  link : Option String
deriving DecidableEq, Repr

/-- The `UploadResponse` schema of `app/schemas/video.py` (`link` kept as
the raw optional string; `HttpUrl` validation is not modelled). -/
structure UploadResponse where
  video_id : String
  link : Option String
  status : String
deriving DecidableEq, Repr

/-- HTTP method of one binary-transfer attempt against the upload link. -/
inductive TransferMethod where
  | patch
  | put
deriving DecidableEq, Repr

/-- Provider behaviour for the binary-transfer calls: the status code the
initial PATCH to the upload link answers with (`none` when the call raises,
e.g. a network failure), and likewise for the fallback PUT, consulted only
when that second call is actually made. -/
structure TransferBehavior where
  patchStatus : Option Nat
  putStatus : Option Nat
deriving DecidableEq, Repr

/-- `httpx.Response.raise_for_status` raises exactly for 4xx and 5xx
status codes. -/
def raisesForStatus (code : Nat) : Bool :=
  400 ≤ code ∧ code ≤ 599

/-- Step 2 of `upload_video` (vimeo_client.py lines 127-160): PATCH the
bytes to the upload link; if the status is not in `[200, 201, 204]`, make
one PUT to the same link; then `raise_for_status()` on the last response.
Any exception in the block is caught and re-raised as a 502.  Returns the
list of attempts made and the final outcome. -/
def upload_transfer (b : TransferBehavior) :
    List TransferMethod × Except HTTPException Nat :=
  let uploadFailed : HTTPException := ⟨502, "Upload to Vimeo Server failed"⟩
  match b.patchStatus with
  | none => ([.patch], .error uploadFailed)
  | some s1 =>
      if s1 ∈ [200, 201, 204] then
        ([.patch], .ok s1)
      else
        match b.putStatus with
        | none => ([.patch, .put], .error uploadFailed)
        | some s2 =>
            ([.patch, .put],
             if raisesForStatus s2 then .error uploadFailed else .ok s2)

/-- Terminal outcome of `VimeoClient.upload_video`: a built
`UploadResponse`, a raised `HTTPException`, or an unhandled Python runtime
error (`ticket.get("uri")` returned `None` and `None.split` raises). -/
inductive UploadOutcome where
  | ok (r : UploadResponse)
  | httpError (e : HTTPException)
  | pythonError
deriving DecidableEq, Repr

/-- `VimeoClient.upload_video` (vimeo_client.py lines 99-165): create the
ticket via `_request`, require a truthy `upload.upload_link` (else a 500),
run the binary transfer, then build the response from the ticket's `uri`
and `link`.  Returns the transfer attempts made and the outcome. -/
def upload_video (ticketOutcome : RequestOutcome UploadTicket) (b : TransferBehavior) :
    List TransferMethod × UploadOutcome :=
  match _request ticketOutcome with
  | .error e => ([], .httpError e)
  | .ok ticket =>
      let upload_link := (ticket.upload.getD ⟨none⟩).upload_link
      if upload_link = none ∨ upload_link = some "" then
        ([], .httpError ⟨500, "Failed to retrieve upload link from Vimeo"⟩)
      else
        match upload_transfer b with
        | (attempts, .error e) => (attempts, .httpError e)
        | (attempts, .ok _) =>
            match ticket.uri with
            | none => (attempts, .pythonError)
            | some u =>
                (attempts, .ok ⟨lastSegment u, ticket.link, "uploaded_pending_transcode"⟩)

/-- The `Settings` model of `app/core/config.py` lines 4-20. -/
structure Settings where
  VIMEO_ACCESS_TOKEN : String
  VIMEO_BASE_URL : String
  LOG_LEVEL : String
deriving DecidableEq, Repr

/-- Loading `Settings` from an environment (app/core/config.py): models
pydantic `BaseSettings` construction — a field declared without a default
(`VIMEO_ACCESS_TOKEN: str`) is required, and its absence raises a
validation error at `settings = Settings()`, which runs at import time and
so fails startup; the other two fields fall back to their declared
defaults when their variables are absent. -/
def Settings.load (env : String → Option String) : Except String Settings :=
  match env "VIMEO_ACCESS_TOKEN" with
  | none => .error "VIMEO_ACCESS_TOKEN field required"
  | some token =>
      .ok { VIMEO_ACCESS_TOKEN := token
            VIMEO_BASE_URL := (env "VIMEO_BASE_URL").getD "https://api.vimeo.com"
            LOG_LEVEL := (env "LOG_LEVEL").getD "INFO" }

/-- C1: the normalized id is exactly the substring of the record's `uri`
after its last `/` (the last element of splitting the uri, defaulted to
`""`, on `/`); the uri `/videos/123` normalizes to id `123`; and the id
depends on no field of the provider record other than `uri` (any two
records agreeing on `uri` normalize to the same id). -/
theorem normalize_id_from_uri_only (d : ProviderRecord) :
    (_normalize_video d).id = ((pySplit (d.uri.getD "") '/').getLast?).getD ""
    ∧ (d.uri = some "/videos/123" → (_normalize_video d).id = "123")
    ∧ (∀ d2 : ProviderRecord, d2.uri = d.uri →
        (_normalize_video d2).id = (_normalize_video d).id) := by
  refine ⟨rfl, ?_, ?_⟩
  · intro h
    show lastSegment (d.uri.getD "") = "123"
    rw [h]
    rfl
  · intro d2 h
    show lastSegment (d2.uri.getD "") = lastSegment (d.uri.getD "")
    rw [h]

/-- C1 witness: evaluating the theorem at the record whose uri is
`/videos/123` and at a second record differing in every other field. -/
theorem normalize_id_from_uri_only_witness :
    (_normalize_video ⟨some "/videos/123", none, none, none, none, none, none⟩).id = "123"
    ∧ (_normalize_video ⟨some "/videos/123", some "other", some "d", some 7,
          some "https://x", some ⟨some "<e>"⟩, none⟩).id
      = (_normalize_video ⟨some "/videos/123", none, none, none, none, none, none⟩).id :=
  ⟨(normalize_id_from_uri_only ⟨some "/videos/123", none, none, none, none, none, none⟩).2.1 rfl,
   (normalize_id_from_uri_only ⟨some "/videos/123", none, none, none, none, none, none⟩).2.2
     ⟨some "/videos/123", some "other", some "d", some 7,
      some "https://x", some ⟨some "<e>"⟩, none⟩ rfl⟩

/-- C7: normalization fills each absent optional field with its default —
`name` becomes the placeholder "Untitled", `duration` becomes 0,
`description`, `embed_html` and `pictures` become `none` — and the embed
HTML is the nested `embed.html` value when the `embed` object is
present. -/
theorem normalize_field_defaults (d : ProviderRecord) :
    (d.name = none → (_normalize_video d).name = "Untitled")
    ∧ (d.duration = none → (_normalize_video d).duration = 0)
    ∧ (d.description = none → (_normalize_video d).description = none)
    ∧ (d.embed = none → (_normalize_video d).embed_html = none)
    ∧ (d.pictures = none → (_normalize_video d).pictures = none)
    ∧ (∀ e : ProviderEmbed, d.embed = some e →
        (_normalize_video d).embed_html = e.html) := by
  refine ⟨?_, ?_, ?_, ?_, ?_, ?_⟩ <;>
    first
    | (intro h; simp [_normalize_video, h])
    | (intro e h; simp [_normalize_video, h])

/-- C7 witness: evaluating the theorem at the record with every optional
field absent, and the embed conjunct at a record with a present embed. -/
theorem normalize_field_defaults_witness :
    (_normalize_video ⟨none, none, none, none, none, none, none⟩).name = "Untitled"
    ∧ (_normalize_video ⟨none, none, none, none, none, none, none⟩).duration = 0
    ∧ (_normalize_video ⟨none, none, none, none, none, none, none⟩).description = none
    ∧ (_normalize_video ⟨none, none, none, none, none, none, none⟩).embed_html = none
    ∧ (_normalize_video ⟨none, none, none, none, none, none, none⟩).pictures = none
    ∧ (_normalize_video ⟨none, none, none, none, none, some ⟨some "<iframe>"⟩, none⟩).embed_html
        = some "<iframe>" :=
  ⟨(normalize_field_defaults ⟨none, none, none, none, none, none, none⟩).1 rfl,
   (normalize_field_defaults ⟨none, none, none, none, none, none, none⟩).2.1 rfl,
   (normalize_field_defaults ⟨none, none, none, none, none, none, none⟩).2.2.1 rfl,
   (normalize_field_defaults ⟨none, none, none, none, none, none, none⟩).2.2.2.1 rfl,
   (normalize_field_defaults ⟨none, none, none, none, none, none, none⟩).2.2.2.2.1 rfl,
   (normalize_field_defaults ⟨none, none, none, none, none, some ⟨some "<iframe>"⟩, none⟩).2.2.2.2.2
     ⟨some "<iframe>"⟩ rfl⟩

/-- C9: id and embed extraction are total over the dictionary model — a
record with no `uri` key normalizes to the empty id (splitting `""` on `/`
yields `[""]`, whose last element is `""`), and an absent `embed` object or
an embed object without `html` yields `embed_html = none`; `_normalize_video`
is a total Lean function, so no lookup error is reachable in these steps. -/
theorem normalize_total_on_absent_keys (d : ProviderRecord) :
    (d.uri = none → (_normalize_video d).id = "")
    ∧ (pySplit "" '/' = [""])
    ∧ ((d.embed = none ∨ d.embed = some ⟨none⟩) →
        (_normalize_video d).embed_html = none) := by
  refine ⟨?_, rfl, ?_⟩
  · intro h
    show lastSegment (d.uri.getD "") = ""
    rw [h]
    rfl
  · rintro (h | h) <;> simp [_normalize_video, h]

/-- C9 witness: evaluating the theorem at the empty record and at a record
whose embed object lacks `html`. -/
theorem normalize_total_on_absent_keys_witness :
    (_normalize_video ⟨none, none, none, none, none, none, none⟩).id = ""
    ∧ (_normalize_video ⟨none, none, none, none, none, some ⟨none⟩, none⟩).embed_html = none :=
  ⟨(normalize_total_on_absent_keys ⟨none, none, none, none, none, none, none⟩).1 rfl,
   (normalize_total_on_absent_keys ⟨none, none, none, none, none, some ⟨none⟩, none⟩).2.2
     (Or.inr rfl)⟩

/-- C2: `_request` maps each failure kind to exactly one error — provider
status 401 to a 401 (invalid token), 403 to a 403, 404 to a 404, 429 to a
429, any other 4xx/5xx status to a 502 whose detail carries the upstream
response body text, and a network-level failure to a 503. -/
theorem request_error_mapping (text : String) :
    (_request (RequestOutcome.statusError 401 text : RequestOutcome Unit)
        = .error ⟨401, "Invalid Vimeo Token"⟩)
    ∧ (_request (RequestOutcome.statusError 403 text : RequestOutcome Unit)
        = .error ⟨403, "Permission Denied"⟩)
    ∧ (_request (RequestOutcome.statusError 404 text : RequestOutcome Unit)
        = .error ⟨404, "Resource Not Found"⟩)
    ∧ (_request (RequestOutcome.statusError 429 text : RequestOutcome Unit)
        = .error ⟨429, "Rate Limit Exceeded"⟩)
    ∧ (∀ code : Nat, 400 ≤ code → code ≤ 599 →
        code ≠ 401 → code ≠ 403 → code ≠ 404 → code ≠ 429 →
        _request (RequestOutcome.statusError code text : RequestOutcome Unit)
          = .error ⟨502, "Vimeo API Error: " ++ text⟩)
    ∧ (_request (RequestOutcome.requestError : RequestOutcome Unit)
        = .error ⟨503, "Service Unavailable"⟩) := by
  refine ⟨rfl, rfl, rfl, rfl, ?_, rfl⟩
  intro code _ _ h401 h403 h404 h429
  simp [_request, h401, h403, h404, h429]

/-- C2 witness: evaluating the theorem's generic-4xx/5xx branch at
status 500 with body `boom`. -/
theorem request_error_mapping_witness :
    _request (RequestOutcome.statusError 500 "boom" : RequestOutcome Unit)
      = .error ⟨502, "Vimeo API Error: " ++ "boom"⟩ :=
  (request_error_mapping "boom").2.2.2.2.1 500 (by decide) (by decide)
    (by decide) (by decide) (by decide) (by decide)

/-- C3 counterexample: the whitespace-only query `" "` passes the route's
`min_length=1` validation, so the handler runs and the outbound provider
call carrying `query=" "` is made — contradicting the claim that a
whitespace-only `q` yields a 400 with no outbound call; and the empty
query is rejected with FastAPI's 422 parameter-validation status, not
400. -/
theorem search_whitespace_q_reaches_provider :
    search_videos_route (some " ") 1 25 (RequestOutcome.success ⟨[], none, none, none⟩)
      = RouteResult.handled
          (⟨"GET", "/me/videos", ⟨1, 25, none, some " "⟩⟩, Except.ok ⟨[], 1, 25, 0⟩)
    ∧ search_videos_route (some "") 1 25 (RequestOutcome.success ⟨[], none, none, none⟩)
      = RouteResult.validationError 422 :=
  ⟨rfl, rfl⟩

/-- C3 amended: a missing or empty `q` is rejected with a 422
parameter-validation error and the handler (hence any outbound call) is
never reached; any `q` of length at least one — whitespace-only strings
included — passes validation and the provider search call is made with
that query. -/
theorem search_q_validation (q : Option String) (page per_page : Int)
    (outcome : RequestOutcome ListingResponse) :
    ((q = none ∨ q = some "") →
        search_videos_route q page per_page outcome = RouteResult.validationError 422)
    ∧ (∀ s : String, q = some s → 1 ≤ s.length →
        1 ≤ page → 1 ≤ per_page → per_page ≤ 100 →
        search_videos_route q page per_page outcome
          = RouteResult.handled (search_videos s page per_page outcome)) := by
  constructor
  · rintro (h | h) <;> subst h <;> rfl
  · intro s hq hlen hp hpp1 hpp2
    subst hq
    have h1 : ¬ s.length < 1 := by omega
    have h2 : ¬ page < 1 := by omega
    have h3 : ¬ (per_page < 1 ∨ 100 < per_page) := by omega
    simp only [search_videos_route, if_neg h1, if_neg h2, if_neg h3]

/-- C3 amended witness: evaluating the theorem at `q = " "` (length 1) and
at the empty query. -/
theorem search_q_validation_witness :
    search_videos_route (some " ") 1 25 (RequestOutcome.requestError)
      = RouteResult.handled (search_videos " " 1 25 (RequestOutcome.requestError))
    ∧ search_videos_route (some "") 1 25 (RequestOutcome.requestError)
      = RouteResult.validationError 422 :=
  ⟨(search_q_validation (some " ") 1 25 (RequestOutcome.requestError)).2 " " rfl
     (by decide) (by decide) (by decide) (by decide),
   (search_q_validation (some "") 1 25 (RequestOutcome.requestError)).1 (Or.inr rfl)⟩

/-- C4: evaluated at a provider record whose link is
`https://example.com/v/123`, the play route in redirect mode answers with
status 307 — starlette's `RedirectResponse` default, since the route passes
no status code — and not the 302 stated by the claim, the route's own
docstring, and the repository's `test_play_video_redirect`; the `Location`
target is the record's link and the body is empty.  In json mode it does
answer 200 with the record's link and a null `embed_html`. -/
theorem play_redirect_status_is_307 :
    play_video PlayMode.redirect
        (RequestOutcome.success
          ⟨some "/videos/123", some "Test Video", none, some 60,
           some "https://example.com/v/123", none, none⟩)
      = PlayResult.redirect 307 "https://example.com/v/123"
    ∧ play_video PlayMode.json
        (RequestOutcome.success
          ⟨some "/videos/123", some "Test Video", none, some 60,
           some "https://example.com/v/123", none, none⟩)
      = PlayResult.json 200 "https://example.com/v/123" none
    ∧ (307 : Nat) ≠ 302 :=
  ⟨rfl, rfl, by decide⟩

/-- C5 counterexample: a ticket-creation response that succeeds but carries
no `upload.upload_link` makes the two-step upload sequence stop before any
transfer attempt, and the failure is surfaced as a 500 — not the 502 the
claim states for every incomplete upload sequence. -/
theorem upload_missing_link_is_500 :
    upload_video
        (RequestOutcome.success ⟨none, some "/videos/9", some "https://vimeo.com/9"⟩)
        ⟨some 200, some 200⟩
      = ([], UploadOutcome.httpError ⟨500, "Failed to retrieve upload link from Vimeo"⟩)
    ∧ (500 : Nat) ≠ 502 :=
  ⟨rfl, by decide⟩

/-- C5 amended: when the first binary transfer attempt (a PATCH) returns a
non-success status (not 200/201/204), the client makes exactly one fallback
attempt with a different method (a PUT) and never a third; every failure of
the binary-transfer step is surfaced as the 502 upload error; but a ticket
response with a missing (or empty) upload link stops the sequence with a
500, and ticket-creation failures surface through the `_request` error
mapping rather than as 502. -/
theorem upload_single_fallback (b : TransferBehavior) :
    (∀ s : Nat, b.patchStatus = some s → s ∈ [200, 201, 204] →
        upload_transfer b = ([TransferMethod.patch], Except.ok s))
    ∧ (∀ s : Nat, b.patchStatus = some s → s ∉ [200, 201, 204] →
        (upload_transfer b).1 = [TransferMethod.patch, TransferMethod.put])
    ∧ (upload_transfer b).1.length ≤ 2
    ∧ (∀ e : HTTPException, (upload_transfer b).2 = Except.error e →
        e = ⟨502, "Upload to Vimeo Server failed"⟩)
    ∧ (∀ t : UploadTicket,
        ((t.upload.getD ⟨none⟩).upload_link = none
          ∨ (t.upload.getD ⟨none⟩).upload_link = some "") →
        upload_video (RequestOutcome.success t) b
          = ([], UploadOutcome.httpError
                   ⟨500, "Failed to retrieve upload link from Vimeo"⟩)) := by
  refine ⟨?_, ?_, ?_, ?_, ?_⟩
  · intro s hs hmem
    simp [upload_transfer, hs, hmem]
  · intro s hs hmem
    simp only [upload_transfer, hs]
    rw [if_neg hmem]
    cases b.putStatus <;> simp
  · rcases b with ⟨p, pq⟩
    cases p with
    | none => simp [upload_transfer]
    | some s1 =>
        by_cases hmem : s1 ∈ [200, 201, 204]
        · simp [upload_transfer, hmem]
        · cases pq <;> simp [upload_transfer, hmem]
  · intro e he
    rcases b with ⟨p, pq⟩
    cases p with
    | none =>
        simp [upload_transfer] at he
        exact he.symm
    | some s1 =>
        by_cases hmem : s1 ∈ [200, 201, 204]
        · simp [upload_transfer, hmem] at he
        · cases pq with
          | none =>
              simp [upload_transfer, hmem] at he
              exact he.symm
          | some s2 =>
              by_cases hr : raisesForStatus s2 = true
              · simp [upload_transfer, hmem, hr] at he
                exact he.symm
              · simp [upload_transfer, hmem, hr] at he
  · intro t ht
    rcases ht with h | h <;> simp [upload_video, _request, h]

/-- C5 amended witness: a first attempt answered 400 is followed by exactly
the PATCH-then-PUT attempt list, and a first attempt answered 200 by the
single PATCH. -/
theorem upload_single_fallback_witness :
    (upload_transfer ⟨some 400, some 500⟩).1 = [TransferMethod.patch, TransferMethod.put]
    ∧ upload_transfer ⟨some 200, some 500⟩ = ([TransferMethod.patch], Except.ok 200) :=
  ⟨(upload_single_fallback ⟨some 400, some 500⟩).2.1 400 rfl (by decide),
   (upload_single_fallback ⟨some 200, some 500⟩).1 200 rfl (by decide)⟩

/-- C6 counterexample: a valid list request with page 3 and per_page 50
against a provider response carrying no `page`/`per_page`/`total` keys
forwards 3 and 50 to the provider but comes back with the envelope
1/25/0 — the constants of the code, not the request inputs the claim says
the envelope defaults to. -/
theorem list_envelope_defaults_are_constants :
    get_videos 3 50 none (RequestOutcome.success ⟨[], none, none, none⟩)
      = (⟨"GET", "/me/videos", ⟨3, 50, none, none⟩⟩, Except.ok ⟨[], 1, 25, 0⟩)
    ∧ (1 : Int) ≠ 3 :=
  ⟨rfl, by decide⟩

/-- C6 amended: for every valid list request (page ≥ 1, 1 ≤ per_page ≤ 100,
well-formed sort) the route delegates to `get_videos`, which forwards
exactly the requested page and per_page to the provider; the envelope's
page, per_page and total are taken from the provider response, defaulted to
the constants 1, 25 and 0 when absent (not to the request inputs), so they
equal the request values exactly when the provider echoes them. -/
theorem list_forwards_params (page per_page : Int) (sort : Option String)
    (resp : ListingResponse)
    (h1 : 1 ≤ page) (h2 : 1 ≤ per_page) (h3 : per_page ≤ 100)
    (hs : sortOk sort = true) :
    list_videos page per_page sort (RequestOutcome.success resp)
      = RouteResult.handled (get_videos page per_page sort (RequestOutcome.success resp))
    ∧ (get_videos page per_page sort (RequestOutcome.success resp)).1.params.page = page
    ∧ (get_videos page per_page sort (RequestOutcome.success resp)).1.params.per_page = per_page
    ∧ (get_videos page per_page sort (RequestOutcome.success resp)).2
        = Except.ok ⟨resp.data.map _normalize_video,
                     resp.page.getD 1, resp.per_page.getD 25, resp.total.getD 0⟩
    ∧ (resp.page = some page → resp.per_page = some per_page →
        (get_videos page per_page sort (RequestOutcome.success resp)).2
          = Except.ok ⟨resp.data.map _normalize_video, page, per_page, resp.total.getD 0⟩) := by
  have hp : ¬ page < 1 := by omega
  have hpp : ¬ (per_page < 1 ∨ 100 < per_page) := by omega
  refine ⟨?_, rfl, rfl, rfl, ?_⟩
  · simp [list_videos, hp, hpp, hs]
  · intro ha hb
    simp [get_videos, _request, ha, hb]

/-- C6 amended witness: evaluating the theorem at page 2, per_page 30 and a
provider response with no envelope keys. -/
theorem list_forwards_params_witness :
    (get_videos 2 30 none (RequestOutcome.success ⟨[], none, none, none⟩)).1.params.page = 2
    ∧ (get_videos 2 30 none (RequestOutcome.success ⟨[], none, none, none⟩)).1.params.per_page
        = 30 :=
  ⟨(list_forwards_params 2 30 none ⟨[], none, none, none⟩ (by decide) (by decide)
      (by decide) rfl).2.1,
   (list_forwards_params 2 30 none ⟨[], none, none, none⟩ (by decide) (by decide)
      (by decide) rfl).2.2.1⟩

/-- C8: settings loading requires `VIMEO_ACCESS_TOKEN` — an environment
without it makes `Settings.load` (run at import time) fail — while an
environment that has it loads the token, with `VIMEO_BASE_URL` falling back
to the provider's production endpoint `https://api.vimeo.com` and
`LOG_LEVEL` to `INFO` when those variables are absent. -/
theorem settings_loading (env : String → Option String) :
    (env "VIMEO_ACCESS_TOKEN" = none →
        Settings.load env = Except.error "VIMEO_ACCESS_TOKEN field required")
    ∧ (∀ t : String, env "VIMEO_ACCESS_TOKEN" = some t →
        Settings.load env
          = Except.ok ⟨t, (env "VIMEO_BASE_URL").getD "https://api.vimeo.com",
                          (env "LOG_LEVEL").getD "INFO"⟩)
    ∧ (∀ t : String, env "VIMEO_ACCESS_TOKEN" = some t →
        env "VIMEO_BASE_URL" = none → env "LOG_LEVEL" = none →
        Settings.load env = Except.ok ⟨t, "https://api.vimeo.com", "INFO"⟩) := by
  refine ⟨?_, ?_, ?_⟩
  · intro h
    simp [Settings.load, h]
  · intro t h
    simp [Settings.load, h]
  · intro t h hb hl
    simp [Settings.load, h, hb, hl]

/-- C8 witness: the empty environment fails to load, and the environment
holding only the token loads the two defaults. -/
theorem settings_loading_witness :
    Settings.load (fun _ => none) = Except.error "VIMEO_ACCESS_TOKEN field required"
    ∧ Settings.load (fun k => if k = "VIMEO_ACCESS_TOKEN" then some "tok" else none)
        = Except.ok ⟨"tok", "https://api.vimeo.com", "INFO"⟩ :=
  ⟨(settings_loading (fun _ => none)).1 rfl,
   (settings_loading (fun k => if k = "VIMEO_ACCESS_TOKEN" then some "tok" else none)).2.2
     "tok" rfl rfl rfl⟩

/-- C10: on any provider behaviour, `search_videos` and `get_videos`
without a sort key produce the same result: the same method and endpoint,
identical `VideoList` values (same per-item normalization and the same
envelope defaults 1/25/0 on a response missing those keys), with the
outbound parameters differing only in the presence of the `query` key. -/
theorem search_matches_list (q : String) (page per_page : Int)
    (resp : ListingResponse) (outcome : RequestOutcome ListingResponse) :
    (search_videos q page per_page outcome).2 = (get_videos page per_page none outcome).2
    ∧ (search_videos q page per_page outcome).1.method
        = (get_videos page per_page none outcome).1.method
    ∧ (search_videos q page per_page outcome).1.endpoint
        = (get_videos page per_page none outcome).1.endpoint
    ∧ (search_videos q page per_page outcome).1.params
        = { (get_videos page per_page none outcome).1.params with query := some q }
    ∧ (search_videos q page per_page (RequestOutcome.success resp)).2
        = Except.ok ⟨resp.data.map _normalize_video,
                     resp.page.getD 1, resp.per_page.getD 25, resp.total.getD 0⟩ := by
  refine ⟨?_, rfl, rfl, rfl, rfl⟩
  cases h : (_request outcome : Except HTTPException ListingResponse) <;>
    simp [search_videos, get_videos, h]

end Vimeo
